import Mathlib

/-!
Verification of the GitGlue / github-portfolio web component (gitglue.js and
the two earlier variants of the same file found in the repository).

Embedding conventions
- JavaScript `Date` values are modelled by their epoch value in milliseconds
  (`Int`).  Date arithmetic (`setDate`, subtraction, comparison) is exact
  millisecond arithmetic in a fixed UTC-like timezone; daylight-saving shifts
  of the host timezone are outside the model.
- JavaScript `Math.floor(a / b)` on numbers that are exact integers, and the
  comparator arithmetic on dates, are `Int` operations; `Int` division in
  Lean is Euclidean division, which agrees with `Math.floor` of the exact
  quotient for positive divisors.
- Missing / `undefined` record fields are `Option`; the JavaScript `x || d`
  idiom on strings (empty string is falsy) is `jsOrStr`, and interpolation of
  `undefined` into a template literal is `jsUndef` (printing "undefined").
- `String.toLower`/`toUpper` model `toLowerCase`/`toUpperCase` (exact on the
  ASCII repertoire these pages use).
- The SVG bar chart arithmetic of `buildContributionGraph` is IEEE double
  arithmetic in JavaScript; it is modelled by exact rational arithmetic
  (display-only values, no claim depends on the printed digits).
-/

/-! ### Time model -/

/-- One civil day in milliseconds, the unit of `setDate` arithmetic. -/
def dayMs : Int := 86400000

/-- Day of the week of an epoch-millisecond instant, 0 = Sunday .. 6 = Saturday
(JavaScript `Date.prototype.getDay`; 1 Jan 1970 was a Thursday, day 4). -/
def dayOfWeek (t : Int) : Int := (t / dayMs + 4) % 7

/-- Civil date (year, month, day) of a day count since 1 Jan 1970
(days-from-civil inverse, used by `Date.prototype.toLocaleDateString`). -/
def civilFromDays (z : Int) : Int × Int × Int :=
  let z2 := z + 719468
  let era := z2 / 146097
  let doe := z2 - era * 146097
  let yoe := (doe - doe / 1460 + doe / 36524 - doe / 146096) / 365
  let doy := doe - (365 * yoe + yoe / 4 - yoe / 100)
  let mp := (5 * doy + 2) / 153
  let d := doy - (153 * mp + 2) / 5 + 1
  let m := mp + (if mp < 10 then 3 else -9)
  (yoe + era * 400 + (if m ≤ 2 then 1 else 0), m, d)

/-- Short month name used by `toLocaleDateString('en-US', { month: 'short' })`. -/
def monthShort (m : Int) : String :=
  if m = 1 then "Jan" else if m = 2 then "Feb" else if m = 3 then "Mar"
  else if m = 4 then "Apr" else if m = 5 then "May" else if m = 6 then "Jun"
  else if m = 7 then "Jul" else if m = 8 then "Aug" else if m = 9 then "Sep"
  else if m = 10 then "Oct" else if m = 11 then "Nov" else "Dec"

/-- `weekStart.toLocaleDateString('en-US', { month: 'short', day: 'numeric' })`,
for example "Jan 5". -/
def weekLabel (start : Int) : String :=
  let c := civilFromDays (start / dayMs)
  monthShort c.2.1 ++ " " ++ toString c.2.2

/-! ### Records fetched from the API

Only the fields the component reads are modelled.  `updated_at` and
`created_at` are ISO date strings in the API; the component only ever parses
them with `new Date(...)`, so they are modelled by the parsed epoch value. -/

structure Profile where
  login : String
  name : Option String
  bio : Option String
  html_url : String
  avatar_url : String
  public_repos : Nat
  followers : Nat
  following : Nat
deriving DecidableEq

structure Repo where
  name : String
  html_url : String
  description : Option String
  language : Option String
  fork : Bool
  stargazers_count : Nat
  forks_count : Nat
  updated_at : Int
deriving DecidableEq

structure PullReq where
  number : Option Int
deriving DecidableEq

structure Release where
  tag_name : Option String
deriving DecidableEq

structure Payload where
  head : Option String
  ref_type : Option String
  ref : Option String
  action : Option String
  number : Option Int
  pull_request : Option PullReq
  release : Option Release
deriving DecidableEq

structure RepoRef where
  name : String
deriving DecidableEq

structure Event where
  type : String
  repo : Option RepoRef
  payload : Option Payload
  created_at : Int
deriving DecidableEq

/-! ### Small JavaScript idioms -/

/-- `o || d` on a string-or-undefined value: the empty string is falsy. -/
def jsOrStr (o : Option String) (d : String) : String :=
  match o with
  | some s => if s = "" then d else s
  | none => d

/-- Interpolating a string-or-undefined value into a template literal:
`undefined` prints as "undefined". -/
def jsUndef (o : Option String) : String := o.getD "undefined"

/-- `s.includes(sub)`: substring containment. -/
def jsIncludes (s sub : String) : Bool := decide (sub.data <:+: s.data)

/-- `s.toLowerCase()` (character-wise; exact on the ASCII repertoire used). -/
def jsToLower (s : String) : String := String.mk (s.data.map Char.toLower)

/-- `s.toUpperCase()` on the same footing. -/
def jsToUpper (s : String) : String := String.mk (s.data.map Char.toUpper)

/-- `s.split(sep)` for a single-character separator, on the character list:
the empty string splits to one empty field, a trailing separator yields a
trailing empty field. -/
def splitOnChar (sep : Char) : List Char → List (List Char)
  | [] => [[]]
  | c :: cs =>
    if c = sep then [] :: splitOnChar sep cs
    else
      match splitOnChar sep cs with
      | [] => [[c]]
      | p :: ps => (c :: p) :: ps

/-- `s.split('/')`. -/
def jsSplitSlash (s : String) : List String :=
  (splitOnChar (Char.ofNat 47) s.data).map String.mk

/-! ### timeAgo (gitglue.js lines 218-234, identical in both other variants) -/

/-- The `intervals` table of `timeAgo`: label and length in seconds. -/
def intervals : List (String × Int) :=
  [("year", 31536000), ("month", 2592000), ("day", 86400),
   ("hour", 3600), ("minute", 60)]

/-- The `for (const interval of intervals)` loop of `timeAgo`: the first
interval that fits at least once into `seconds` yields the sentence. -/
def timeAgoLoop : List (String × Int) → Int → String
  | [], _ => "just now"
  | (label, isec) :: rest, seconds =>
    let count := seconds / isec
    if 1 ≤ count then
      toString count ++ " " ++ label ++ (if 1 < count then "s" else "") ++ " ago"
    else timeAgoLoop rest seconds

/-- `timeAgo(date)` with the current instant `now`:
`seconds = Math.floor((new Date() - date) / 1000)`, then the interval loop. -/
def timeAgo (now date : Int) : String :=
  timeAgoLoop intervals ((now - date) / 1000)

/-- The interval lengths occurring in the `intervals` table. -/
theorem snd_mem_intervals {lab2 : String} {isec2 : Int}
    (hmem : (lab2, isec2) ∈ intervals) :
    isec2 = 31536000 ∨ isec2 = 2592000 ∨ isec2 = 86400 ∨
      isec2 = 3600 ∨ isec2 = 60 := by
  simp only [intervals, List.mem_cons, List.not_mem_nil, or_false] at hmem
  rcases hmem with h | h | h | h | h <;> (injection h with h1 h2) <;> omega

/-- Claim C3: for a date at least 60 seconds in the past, `timeAgo` returns
"count label ago" where the label is the largest interval of the table fitting
at least once into the elapsed whole seconds, the count is the floor quotient
by that interval, and "s" is appended exactly when the count exceeds 1; for a
date less than 60 seconds in the past it returns "just now". -/
theorem timeAgo_formats_elapsed_time (now date : Int) :
    (60000 ≤ now - date →
      ∃ lab isec, (lab, isec) ∈ intervals ∧ isec ≤ (now - date) / 1000 ∧
        (∀ lab2 isec2, (lab2, isec2) ∈ intervals →
          isec2 ≤ (now - date) / 1000 → isec2 ≤ isec) ∧
        timeAgo now date =
          toString ((now - date) / 1000 / isec) ++ " " ++ lab ++
            (if 1 < (now - date) / 1000 / isec then "s" else "") ++ " ago") ∧
    (0 ≤ now - date → now - date < 60000 → timeAgo now date = "just now") := by
  constructor
  · intro hpast
    set s : Int := (now - date) / 1000 with hs
    have hnn : (0 : Int) ≤ s := Int.ediv_nonneg (by omega) (by norm_num)
    have h60 : (60 : Int) ≤ s := by
      rw [hs]; rw [Int.le_ediv_iff_mul_le (by norm_num : (0:ℤ) < 1000)]; omega
    have unf : timeAgo now date = timeAgoLoop intervals s := rfl
    rcases le_or_lt 31536000 s with hy | hy
    · refine ⟨"year", 31536000, by simp [intervals], hy, ?_, ?_⟩
      · intro lab2 isec2 hmem hle
        rcases snd_mem_intervals hmem with h | h | h | h | h <;> omega
      · have hc : (1 : Int) ≤ s / 31536000 := by
          rw [Int.le_ediv_iff_mul_le (by norm_num : (0:ℤ) < 31536000)]; omega
        rw [unf]
        simp only [intervals, timeAgoLoop, if_pos hc]
    · have cy : s / 31536000 = 0 := Int.ediv_eq_zero_of_lt hnn hy
      rcases le_or_lt 2592000 s with hm | hm
      · refine ⟨"month", 2592000, by simp [intervals], hm, ?_, ?_⟩
        · intro lab2 isec2 hmem hle
          rcases snd_mem_intervals hmem with h | h | h | h | h <;> omega
        · have hc : (1 : Int) ≤ s / 2592000 := by
            rw [Int.le_ediv_iff_mul_le (by norm_num : (0:ℤ) < 2592000)]; omega
          rw [unf]
          simp only [intervals, timeAgoLoop, cy, if_pos hc]
          norm_num
      · have cm : s / 2592000 = 0 := Int.ediv_eq_zero_of_lt hnn hm
        rcases le_or_lt 86400 s with hd | hd
        · refine ⟨"day", 86400, by simp [intervals], hd, ?_, ?_⟩
          · intro lab2 isec2 hmem hle
            rcases snd_mem_intervals hmem with h | h | h | h | h <;> omega
          · have hc : (1 : Int) ≤ s / 86400 := by
              rw [Int.le_ediv_iff_mul_le (by norm_num : (0:ℤ) < 86400)]; omega
            rw [unf]
            simp only [intervals, timeAgoLoop, cy, cm, if_pos hc]
            norm_num
        · have cd : s / 86400 = 0 := Int.ediv_eq_zero_of_lt hnn hd
          rcases le_or_lt 3600 s with hh | hh
          · refine ⟨"hour", 3600, by simp [intervals], hh, ?_, ?_⟩
            · intro lab2 isec2 hmem hle
              rcases snd_mem_intervals hmem with h | h | h | h | h <;> omega
            · have hc : (1 : Int) ≤ s / 3600 := by
                rw [Int.le_ediv_iff_mul_le (by norm_num : (0:ℤ) < 3600)]; omega
              rw [unf]
              simp only [intervals, timeAgoLoop, cy, cm, cd, if_pos hc]
              norm_num
          · have ch : s / 3600 = 0 := Int.ediv_eq_zero_of_lt hnn hh
            refine ⟨"minute", 60, by simp [intervals], h60, ?_, ?_⟩
            · intro lab2 isec2 hmem hle
              rcases snd_mem_intervals hmem with h | h | h | h | h <;> omega
            · have hc : (1 : Int) ≤ s / 60 := by
                rw [Int.le_ediv_iff_mul_le (by norm_num : (0:ℤ) < 60)]; omega
              rw [unf]
              simp only [intervals, timeAgoLoop, cy, cm, cd, ch, if_pos hc]
              norm_num
  · intro hnn hlt
    have hnn2 : (0 : Int) ≤ (now - date) / 1000 :=
      Int.ediv_nonneg hnn (by norm_num)
    have hub : (now - date) / 1000 < 60 := by
      rw [Int.ediv_lt_iff_lt_mul (by norm_num : (0:ℤ) < 1000)]; omega
    have c5 : ∀ c : Int, 60 ≤ c → (now - date) / 1000 / c = 0 := fun c hc =>
      Int.ediv_eq_zero_of_lt hnn2 (by omega)
    show timeAgoLoop intervals ((now - date) / 1000) = "just now"
    simp only [intervals, timeAgoLoop,
      c5 31536000 (by norm_num), c5 2592000 (by norm_num),
      c5 86400 (by norm_num), c5 3600 (by norm_num), c5 60 (by norm_num)]
    norm_num

/-! ### buildContributionData (gitglue.js lines 49-79) -/

structure Week where
  start : Int
  count : Nat
  label : String
deriving DecidableEq

/-- The initialisation loop `for (let i = 11; i >= 0; i--)` pushes, for index
`j` (that is, `i = 11 - j`), the start instant
`today` shifted by `-(i * 7) - today.getDay()` civil days. -/
def weekStarts (today : Int) : List Int :=
  (List.range 12).map fun (j : Nat) =>
    today - ((11 - (j : Int)) * 7 + dayOfWeek today) * dayMs

/-- The 12 buckets as initialised: count 0 and the locale label of the start. -/
def initWeeks (today : Int) : List Week :=
  (weekStarts today).map fun s => ⟨s, 0, weekLabel s⟩

/-- The body of `events.forEach`: scan the buckets in order, increment the
first one whose window `[start, start + 7 days)` contains the event date, and
`break`. -/
def countEvent : List Week → Int → List Week
  | [], _ => []
  | w :: ws, d =>
    if w.start ≤ d ∧ d < w.start + 7 * dayMs then
      { w with count := w.count + 1 } :: ws
    else w :: countEvent ws d

/-- `buildContributionData(events)` with the current instant `today`. -/
def buildContributionData (events : List Event) (today : Int) : List Week :=
  events.foldl (fun ws e => countEvent ws e.created_at) (initWeeks today)

/-- Total number of events counted across the buckets. -/
def sumCounts (ws : List Week) : Nat := (ws.map Week.count).sum

/-- Counting an event never moves a bucket's start. -/
theorem countEvent_map_start (ws : List Week) (d : Int) :
    (countEvent ws d).map Week.start = ws.map Week.start := by
  induction ws with
  | nil => rfl
  | cons w ws ih => simp only [countEvent]; split <;> simp [ih]

/-- Counting an event increments the total count by at most one. -/
theorem countEvent_sumCounts_le (ws : List Week) (d : Int) :
    sumCounts (countEvent ws d) ≤ sumCounts ws + 1 := by
  induction ws with
  | nil => simp [countEvent, sumCounts]
  | cons w ws ih =>
    simp only [countEvent]; split
    · simp only [sumCounts, List.map_cons, List.sum_cons]; omega
    · simp only [sumCounts, List.map_cons, List.sum_cons] at ih ⊢; omega

/-- The bucket starts survive the whole counting pass. -/
theorem buildContributionData_map_start (events : List Event) (today : Int) :
    (buildContributionData events today).map Week.start = weekStarts today := by
  have h1 : ∀ (evs : List Event) (ws : List Week),
      ((evs.foldl (fun ws e => countEvent ws e.created_at) ws).map Week.start) =
        ws.map Week.start := by
    intro evs
    induction evs with
    | nil => intro ws; rfl
    | cons e evs ih => intro ws; rw [List.foldl_cons, ih, countEvent_map_start]
  rw [buildContributionData, h1, initWeeks, List.map_map]
  simp [Function.comp_def]

/-- Claimed bucket starts, modelled from the claim's words: the Sunday
midnights starting the 12 consecutive calendar weeks that end with the
current week (`today / dayMs * dayMs` is the midnight starting `today`'s
civil day). -/
def claimedWeekStarts (today : Int) : List Int :=
  (List.range 12).map fun (j : Nat) =>
    (today / dayMs - dayOfWeek today - (11 - (j : Int)) * 7) * dayMs

/-- Claim C2, counterexample: at noon of Thursday 1 Jan 1970 the buckets built
by the code start at Sundays carrying the current time of day (noon), not at
the Sunday midnights the claim describes. -/
theorem buildContributionData_starts_not_sunday_midnights :
    (buildContributionData [] 43200000).map Week.start ≠
      claimedWeekStarts 43200000 := by decide

/-- Claim C2 (amended): `buildContributionData` returns exactly 12 buckets;
their starts fall on Sundays (but carry the render instant's time of day
rather than midnight), are 7 days apart, and the render instant lies in the
last bucket's half-open 7-day window; each event increments at most the first
bucket whose window `[start, start + 7 days)` contains its date, so the total
of the 12 counts never exceeds the number of events. -/
theorem buildContributionData_buckets (events : List Event) (today : Int) :
    (buildContributionData events today).length = 12 ∧
    (buildContributionData events today).map Week.start = weekStarts today ∧
    (∀ s ∈ weekStarts today, dayOfWeek s = 0) ∧
    (∀ j : Nat, j + 1 < 12 →
      (weekStarts today)[j + 1]? = (weekStarts today)[j]?.map (· + 7 * dayMs)) ∧
    (∃ last, (weekStarts today).getLast? = some last ∧
      last ≤ today ∧ today < last + 7 * dayMs) ∧
    sumCounts (buildContributionData events today) ≤ events.length := by
  have hmap := buildContributionData_map_start events today
  have hlen : (buildContributionData events today).length = 12 := by
    have := congrArg List.length hmap
    simpa [weekStarts] using this
  refine ⟨hlen, hmap, ?_, ?_, ?_, ?_⟩
  · intro s hs
    simp only [weekStarts, List.mem_map, List.mem_range] at hs
    obtain ⟨j, hj, rfl⟩ := hs
    simp only [dayOfWeek, dayMs]
    omega
  · intro j hj
    rw [weekStarts, List.getElem?_map, List.getElem?_map,
      List.getElem?_range hj, List.getElem?_range (by omega)]
    simp only [Option.map_some']
    congr 1
    push_cast
    ring
  · refine ⟨today - dayOfWeek today * dayMs, ?_, ?_, ?_⟩
    · have hlen2 : (weekStarts today).length = 12 := by simp [weekStarts]
      rw [List.getLast?_eq_getElem?, hlen2]
      rw [weekStarts, List.getElem?_map, List.getElem?_range (by omega)]
      simp only [Option.map_some']
      congr 1
      push_cast
      ring
    · have h0 : 0 ≤ dayOfWeek today := Int.emod_nonneg _ (by norm_num)
      simp only [dayMs] at *
      omega
    · have h7 : dayOfWeek today < 7 := Int.emod_lt_of_pos _ (by norm_num)
      have h0 : 0 ≤ dayOfWeek today := Int.emod_nonneg _ (by norm_num)
      simp only [dayMs] at *
      omega
  · have h2 : ∀ (evs : List Event) (ws : List Week),
        sumCounts (evs.foldl (fun ws e => countEvent ws e.created_at) ws) ≤
          sumCounts ws + evs.length := by
      intro evs
      induction evs with
      | nil => intro ws; simp
      | cons e evs ih =>
        intro ws
        rw [List.foldl_cons]
        calc sumCounts ((evs.foldl (fun ws e => countEvent ws e.created_at)
                (countEvent ws e.created_at))) ≤
            sumCounts (countEvent ws e.created_at) + evs.length := ih _
          _ ≤ (sumCounts ws + 1) + evs.length := by
              have := countEvent_sumCounts_le ws e.created_at; omega
          _ = sumCounts ws + (e :: evs).length := by simp; omega
    have h3 : sumCounts (initWeeks today) = 0 := by
      simp [sumCounts, initWeeks, weekStarts, Function.comp_def]
    have := h2 events (initWeeks today)
    rw [buildContributionData]
    omega

/-! ### formatEventDescription (activity-log variant, src/unnamed/part_000
second file, lines 420-470) -/

/-- `capitalize(str)`: empty or undefined gives "", otherwise the first
character is upper-cased. -/
def capitalize (o : Option String) : String :=
  match o with
  | none => ""
  | some s => if s = "" then "" else jsToUpper (s.take 1) ++ s.drop 1

/-- `event.repo?.name || 'unknown'`. -/
def repoFullNameOf (e : Event) : String :=
  jsOrStr (e.repo.map RepoRef.name) "unknown"

/-- `repoFullName.split('/')[1] || repoFullName`. -/
def repoNameOf (e : Event) : String :=
  jsOrStr (jsSplitSlash (repoFullNameOf e))[1]? (repoFullNameOf e)

/-- `https://github.com/${repoFullName}`. -/
def repoUrlOf (e : Event) : String := "https://github.com/" ++ repoFullNameOf e

/-- The `repoLink` anchor every sentence embeds. -/
def repoLinkOf (e : Event) : String :=
  "<a href=\"" ++ repoUrlOf e ++ "\" target=\"_blank\" rel=\"noopener\">" ++
    repoNameOf e ++ "</a>"

/-- The event types the `switch` of `formatEventDescription` names. -/
def recognizedTypes : List String :=
  ["PushEvent", "CreateEvent", "DeleteEvent", "WatchEvent", "ForkEvent",
   "IssuesEvent", "IssueCommentEvent", "PullRequestEvent",
   "PullRequestReviewEvent", "PullRequestReviewCommentEvent", "ReleaseEvent",
   "PublicEvent"]

/-- `formatEventDescription(event)`: the `switch (event.type)`. -/
def formatEventDescription (e : Event) : String :=
  match e.type with
  | "PushEvent" =>
    match e.payload.bind Payload.head with
    | some head =>
      if head.take 7 = "" then "Pushed to " ++ repoLinkOf e
      else
        "Pushed to " ++ repoLinkOf e ++ " <a href=\"" ++ repoUrlOf e ++
          "/commit/" ++ head ++
          "\" target=\"_blank\" rel=\"noopener\" class=\"commit-hash\">" ++
          head.take 7 ++ "</a>"
    | none => "Pushed to " ++ repoLinkOf e
  | "CreateEvent" =>
    let refType := jsOrStr (e.payload.bind Payload.ref_type) "repository"
    match e.payload.bind Payload.ref with
    | some r =>
      if r = "" then "Created " ++ refType ++ " " ++ repoLinkOf e
      else "Created " ++ refType ++ " <strong>" ++ r ++ "</strong> in " ++
        repoLinkOf e
    | none => "Created " ++ refType ++ " " ++ repoLinkOf e
  | "DeleteEvent" =>
    "Deleted " ++ jsUndef (e.payload.bind Payload.ref_type) ++ " <strong>" ++
      jsUndef (e.payload.bind Payload.ref) ++ "</strong> from " ++ repoLinkOf e
  | "WatchEvent" => "Starred " ++ repoLinkOf e
  | "ForkEvent" => "Forked " ++ repoLinkOf e
  | "IssuesEvent" =>
    capitalize (e.payload.bind Payload.action) ++ " issue in " ++ repoLinkOf e
  | "IssueCommentEvent" => "Commented on issue in " ++ repoLinkOf e
  | "PullRequestEvent" =>
    let prLink :=
      match e.payload.bind Payload.number with
      | some n =>
        if n = 0 then "" else
          " <a href=\"" ++ repoUrlOf e ++ "/pull/" ++ toString n ++
            "\" target=\"_blank\" rel=\"noopener\" class=\"commit-hash\">#" ++
            toString n ++ "</a>"
      | none => ""
    capitalize (e.payload.bind Payload.action) ++ " PR in " ++ repoLinkOf e ++
      prLink
  | "PullRequestReviewEvent" =>
    let prLink :=
      match (e.payload.bind Payload.pull_request).bind PullReq.number with
      | some n =>
        if n = 0 then "" else
          " <a href=\"" ++ repoUrlOf e ++ "/pull/" ++ toString n ++
            "\" target=\"_blank\" rel=\"noopener\" class=\"commit-hash\">#" ++
            toString n ++ "</a>"
      | none => ""
    "Reviewed PR in " ++ repoLinkOf e ++ prLink
  | "PullRequestReviewCommentEvent" =>
    let prLink :=
      match (e.payload.bind Payload.pull_request).bind PullReq.number with
      | some n =>
        if n = 0 then "" else
          " <a href=\"" ++ repoUrlOf e ++ "/pull/" ++ toString n ++
            "\" target=\"_blank\" rel=\"noopener\" class=\"commit-hash\">#" ++
            toString n ++ "</a>"
      | none => ""
    "Commented on PR in " ++ repoLinkOf e ++ prLink
  | "ReleaseEvent" =>
    let tagLink :=
      match (e.payload.bind Payload.release).bind Release.tag_name with
      | some t =>
        if t = "" then "" else
          " <a href=\"" ++ repoUrlOf e ++ "/releases/tag/" ++ t ++
            "\" target=\"_blank\" rel=\"noopener\" class=\"commit-hash\">" ++
            t ++ "</a>"
      | none => ""
    capitalize (e.payload.bind Payload.action) ++ " release in " ++
      repoLinkOf e ++ tagLink
  | "PublicEvent" => "Made " ++ repoLinkOf e ++ " public"
  | _ => "Activity in " ++ repoLinkOf e

/-- Claim C4: `formatEventDescription` is total over all event records; each
of the 12 named event types yields its type-specific sentence, every
unrecognized type falls back to "Activity in repo", and an event carrying no
repo field uses the repo name "unknown". -/
theorem formatEventDescription_total (e : Event) :
    (e.repo = none → repoFullNameOf e = "unknown") ∧
    (e.type ∉ recognizedTypes →
      formatEventDescription e = "Activity in " ++ repoLinkOf e) ∧
    (e.type = "WatchEvent" →
      formatEventDescription e = "Starred " ++ repoLinkOf e) ∧
    (e.type = "ForkEvent" →
      formatEventDescription e = "Forked " ++ repoLinkOf e) ∧
    (e.type = "IssueCommentEvent" →
      formatEventDescription e = "Commented on issue in " ++ repoLinkOf e) ∧
    (e.type = "PublicEvent" →
      formatEventDescription e = "Made " ++ repoLinkOf e ++ " public") ∧
    (e.type = "DeleteEvent" →
      formatEventDescription e =
        "Deleted " ++ jsUndef (e.payload.bind Payload.ref_type) ++
          " <strong>" ++ jsUndef (e.payload.bind Payload.ref) ++
          "</strong> from " ++ repoLinkOf e) ∧
    (e.type = "IssuesEvent" →
      formatEventDescription e =
        capitalize (e.payload.bind Payload.action) ++ " issue in " ++
          repoLinkOf e) ∧
    (e.type = "PushEvent" → ∃ commitLink,
      formatEventDescription e = "Pushed to " ++ repoLinkOf e ++ commitLink) ∧
    (e.type = "CreateEvent" → ∃ rest,
      formatEventDescription e = "Created " ++ rest) ∧
    (e.type = "PullRequestEvent" → ∃ prLink,
      formatEventDescription e =
        capitalize (e.payload.bind Payload.action) ++ " PR in " ++
          repoLinkOf e ++ prLink) ∧
    (e.type = "PullRequestReviewEvent" → ∃ prLink,
      formatEventDescription e = "Reviewed PR in " ++ repoLinkOf e ++ prLink) ∧
    (e.type = "PullRequestReviewCommentEvent" → ∃ prLink,
      formatEventDescription e =
        "Commented on PR in " ++ repoLinkOf e ++ prLink) ∧
    (e.type = "ReleaseEvent" → ∃ tagLink,
      formatEventDescription e =
        capitalize (e.payload.bind Payload.action) ++ " release in " ++
          repoLinkOf e ++ tagLink) := by
  refine ⟨?_, ?_, ?_, ?_, ?_, ?_, ?_, ?_, ?_, ?_, ?_, ?_, ?_, ?_⟩
  · intro h
    simp [repoFullNameOf, h, jsOrStr]
  · intro h
    simp only [recognizedTypes, List.mem_cons, List.not_mem_nil, or_false,
      not_or] at h
    rw [formatEventDescription.eq_def]
    split <;> simp_all
  · intro h; simp [formatEventDescription, h]
  · intro h; simp [formatEventDescription, h]
  · intro h; simp [formatEventDescription, h]
  · intro h; simp [formatEventDescription, h]
  · intro h; simp [formatEventDescription, h]
  · intro h; simp [formatEventDescription, h]
  · intro h
    cases hm : e.payload.bind Payload.head with
    | none => exact ⟨"", by simp [formatEventDescription, h, hm, String.append_empty]⟩
    | some head =>
      by_cases h7 : head.take 7 = ""
      · exact ⟨"", by simp [formatEventDescription, h, hm, h7, String.append_empty]⟩
      · refine ⟨" <a href=\"" ++ repoUrlOf e ++ "/commit/" ++ head ++
          "\" target=\"_blank\" rel=\"noopener\" class=\"commit-hash\">" ++
          head.take 7 ++ "</a>", ?_⟩
        simp [formatEventDescription, h, hm, h7, String.append_assoc]
  · intro h
    cases hm : e.payload.bind Payload.ref with
    | none =>
      refine ⟨jsOrStr (e.payload.bind Payload.ref_type) "repository" ++ " " ++
        repoLinkOf e, ?_⟩
      simp [formatEventDescription, h, hm, String.append_assoc]
    | some r =>
      by_cases hr : r = ""
      · refine ⟨jsOrStr (e.payload.bind Payload.ref_type) "repository" ++
          " " ++ repoLinkOf e, ?_⟩
        simp [formatEventDescription, h, hm, hr, String.append_assoc]
      · refine ⟨jsOrStr (e.payload.bind Payload.ref_type) "repository" ++
          " <strong>" ++ r ++ "</strong> in " ++ repoLinkOf e, ?_⟩
        simp [formatEventDescription, h, hm, hr, String.append_assoc]
  · intro h
    cases hm : e.payload.bind Payload.number with
    | none => exact ⟨"", by simp [formatEventDescription, h, hm, String.append_empty]⟩
    | some n =>
      by_cases hn : n = 0
      · exact ⟨"", by simp [formatEventDescription, h, hm, hn, String.append_empty]⟩
      · refine ⟨" <a href=\"" ++ repoUrlOf e ++ "/pull/" ++ toString n ++
          "\" target=\"_blank\" rel=\"noopener\" class=\"commit-hash\">#" ++
          toString n ++ "</a>", ?_⟩
        simp [formatEventDescription, h, hm, hn, String.append_assoc]
  · intro h
    cases hm : (e.payload.bind Payload.pull_request).bind PullReq.number with
    | none => exact ⟨"", by simp [formatEventDescription, h, hm, String.append_empty]⟩
    | some n =>
      by_cases hn : n = 0
      · exact ⟨"", by simp [formatEventDescription, h, hm, hn, String.append_empty]⟩
      · refine ⟨" <a href=\"" ++ repoUrlOf e ++ "/pull/" ++ toString n ++
          "\" target=\"_blank\" rel=\"noopener\" class=\"commit-hash\">#" ++
          toString n ++ "</a>", ?_⟩
        simp [formatEventDescription, h, hm, hn, String.append_assoc]
  · intro h
    cases hm : (e.payload.bind Payload.pull_request).bind PullReq.number with
    | none => exact ⟨"", by simp [formatEventDescription, h, hm, String.append_empty]⟩
    | some n =>
      by_cases hn : n = 0
      · exact ⟨"", by simp [formatEventDescription, h, hm, hn, String.append_empty]⟩
      · refine ⟨" <a href=\"" ++ repoUrlOf e ++ "/pull/" ++ toString n ++
          "\" target=\"_blank\" rel=\"noopener\" class=\"commit-hash\">#" ++
          toString n ++ "</a>", ?_⟩
        simp [formatEventDescription, h, hm, hn, String.append_assoc]
  · intro h
    cases hm : (e.payload.bind Payload.release).bind Release.tag_name with
    | none => exact ⟨"", by simp [formatEventDescription, h, hm, String.append_empty]⟩
    | some t2 =>
      by_cases ht : t2 = ""
      · exact ⟨"", by simp [formatEventDescription, h, hm, ht, String.append_empty]⟩
      · refine ⟨" <a href=\"" ++ repoUrlOf e ++ "/releases/tag/" ++ t2 ++
          "\" target=\"_blank\" rel=\"noopener\" class=\"commit-hash\">" ++
          t2 ++ "</a>", ?_⟩
        simp [formatEventDescription, h, hm, ht, String.append_assoc]

/-! ### Repo-card search (gitglue.js lines 186 and 203-216) -/

/-- The `data-name` attribute a card is built with: `repo.name.toLowerCase()`. -/
def repoDataName (r : Repo) : String := jsToLower r.name

/-- The `data-desc` attribute: `(repo.description || '').toLowerCase()`. -/
def repoDataDesc (r : Repo) : String := jsToLower (jsOrStr r.description "")

/-- The input handler installed by `setupSearch`: with
`query = e.target.value.toLowerCase()`, a card keeps `display = ''` (stays
visible) exactly when `name.includes(query) || desc.includes(query)`. -/
def cardDisplayed (r : Repo) (value : String) : Bool :=
  jsIncludes (repoDataName r) (jsToLower value) ||
    jsIncludes (repoDataDesc r) (jsToLower value)

/-- `o || ''` coincides with `getD ""`. -/
theorem jsOrStr_empty (o : Option String) : jsOrStr o "" = o.getD "" := by
  cases o with
  | none => rfl
  | some s => by_cases h : s = "" <;> simp [jsOrStr, h]

/-- Claim C5: after a search input with query `q`, a repo card remains
displayed iff the lowercased name or the lowercased description (empty when
the repo has none) contains the lowercased `q` as a substring; the empty
query keeps every card displayed. -/
theorem cardDisplayed_iff_substring (r : Repo) (q : String) :
    (cardDisplayed r q = true ↔
      ((jsToLower q).data <:+: (jsToLower r.name).data ∨
        (jsToLower q).data <:+: (jsToLower (r.description.getD "")).data)) ∧
    cardDisplayed r "" = true := by
  constructor
  · simp [cardDisplayed, jsIncludes, repoDataName, repoDataDesc, jsOrStr_empty]
  · have h0 : jsToLower "" = "" := by decide
    simp [cardDisplayed, jsIncludes, h0]

/-! ### The fetch endpoints of render (gitglue.js lines 27-31) -/

/-- `https://api.github.com/users/${user}`. -/
def profileURL (user : String) : String :=
  "https://api.github.com/users/" ++ user

/-- `https://api.github.com/users/${user}/repos?sort=updated&per_page=100`. -/
def reposURL (user : String) : String :=
  "https://api.github.com/users/" ++ user ++ "/repos?sort=updated&per_page=100"

/-- `https://api.github.com/users/${user}/events?per_page=100`. -/
def eventsURL (user : String) : String :=
  "https://api.github.com/users/" ++ user ++ "/events?per_page=100"

/-- The requests one render pass issues: the three fetches inside
`Promise.all`, in source order, and nothing else. -/
def fetchURLs (user : String) : List String :=
  [profileURL user, reposURL user, eventsURL user]

/-- Claim C6: a render pass requests exactly one page per endpoint: the three
fetch URLs, once each, with the two listing URLs carrying `per_page=100`. -/
theorem fetchURLs_single_page (user : String) :
    fetchURLs user = [profileURL user, reposURL user, eventsURL user] ∧
    (fetchURLs user).length = 3 ∧
    "per_page=100".data <:+: (reposURL user).data ∧
    "per_page=100".data <:+: (eventsURL user).data := by
  refine ⟨rfl, rfl, ?_, ?_⟩
  · have h1 : "per_page=100".data <:+
        "/repos?sort=updated&per_page=100".data := by decide
    rw [reposURL, String.data_append]
    exact (h1.trans (List.suffix_append _ _)).isInfix
  · have h1 : "per_page=100".data <:+ "/events?per_page=100".data := by decide
    rw [eventsURL, String.data_append]
    exact (h1.trans (List.suffix_append _ _)).isInfix

/-! ### connectedCallback (gitglue.js lines 12-19) -/

/-- The markup written when the `user` attribute is missing or empty. -/
def missingUserError : String :=
  "<p style=\"color: #f85149;\">Error: Missing \"user\" attribute</p>"

/-- What a connect does: show the error, or call `render(user)`. -/
inductive ConnectOutcome where
  | showError (html : String)
  | callRender (user : String)
deriving DecidableEq

/-- `connectedCallback`: `getAttribute('user')` is null when absent, and
`!user` is true for null and for the empty string. -/
def connectedCallback (attr : Option String) : ConnectOutcome :=
  match attr with
  | none => ConnectOutcome.showError missingUserError
  | some u =>
    if u = "" then ConnectOutcome.showError missingUserError
    else ConnectOutcome.callRender u

/-- The HTTP requests a connect issues: none on the error path, the render
fetches otherwise. -/
def connectFetches (o : ConnectOutcome) : List String :=
  match o with
  | ConnectOutcome.showError _ => []
  | ConnectOutcome.callRender u => fetchURLs u

/-- Claim C9: with the `user` attribute absent or empty, `connectedCallback`
writes the missing-attribute error and returns without calling render, so no
HTTP fetch is issued; with a non-empty user it calls render. -/
theorem connectedCallback_missing_user (attr : Option String) :
    ((attr = none ∨ attr = some "") →
      connectedCallback attr = ConnectOutcome.showError missingUserError ∧
      connectFetches (connectedCallback attr) = []) ∧
    (∀ u, attr = some u → u ≠ "" →
      connectedCallback attr = ConnectOutcome.callRender u) := by
  constructor
  · rintro (rfl | rfl) <;> exact ⟨rfl, rfl⟩
  · rintro u rfl hu
    simp [connectedCallback, hu]

/-! ### Language colors (gitglue.js lines 495-509, identical in the other
variants) -/

/-- The `LANG_COLORS` table. -/
def langColors : List (String × String) :=
  [("JavaScript", "#f1e05a"),
   ("TypeScript", "#2b7489"),
   ("Python", "#3572A5"),
   ("Java", "#b07219"),
   ("C", "#555555"),
   ("C++", "#f34b7d"),
   ("C#", "#178600"),
   ("Go", "#00ADD8"),
   ("Rust", "#dea584"),
   ("Ruby", "#701516"),
   ("PHP", "#4F5D95"),
   ("Swift", "#ffac45"),
   ("Kotlin", "#F18E33"),
   ("Scala", "#c22d40"),
   ("Shell", "#89e051"),
   ("HTML", "#e34c26"),
   ("CSS", "#563d7c"),
   ("SCSS", "#c6538c"),
   ("Vue", "#41b883"),
   ("Svelte", "#ff3e00"),
   ("Dart", "#00B4AB"),
   ("R", "#198CE7"),
   ("Julia", "#a270ba"),
   ("Lua", "#000080"),
   ("Perl", "#0298c3"),
   ("Haskell", "#5e5086"),
   ("Elixir", "#6e4a7e"),
   ("Clojure", "#db5855"),
   ("Erlang", "#B83998"),
   ("OCaml", "#3be133"),
   ("F#", "#b845fc"),
   ("Jupyter Notebook", "#DA5B0B"),
   ("TeX", "#3D6117"),
   ("Vim script", "#199f4b"),
   ("PowerShell", "#012456"),
   ("Dockerfile", "#384d54"),
   ("Makefile", "#427819"),
   ("Stata", "#1a5f91"),
   ("MATLAB", "#e16737"),
   ("Fortran", "#4d41b1"),
   ("Assembly", "#6E4C13"),
   ("Objective-C", "#438eff"),
   ("Groovy", "#e69f56")]

/-- `LANG_COLORS[language] || '#8b949e'`. -/
def langColor (l : String) : String := jsOrStr (langColors.lookup l) "#8b949e"

/-! ### buildRepoCard (gitglue.js lines 163-201; the first variant in
src/unnamed/part_000 contains a character-identical copy of this method) -/

/-- `buildRepoCard(repo)` at render instant `now` (used by `timeAgo`).
The `lang`, `stars`, `forks` blocks are guarded by JavaScript truthiness:
a missing or empty language and a zero count render nothing. -/
def buildRepoCard (now : Int) (repo : Repo) : String :=
  let lang :=
    match repo.language with
    | some l =>
      if l = "" then "" else
        "\n      <span class=\"lang\">\n        <span class=\"lang-dot\" style=\"background: " ++
    (langColor l) ++
    "\"></span>\n        " ++
    (l) ++
    "\n      </span>\n    "
    | none => ""
  let stars :=
    if repo.stargazers_count = 0 then "" else
      "\n      <a href=\"" ++
    (repo.html_url) ++
    "/stargazers\" target=\"_blank\" rel=\"noopener\" class=\"stat\">\n        <svg viewBox=\"0 0 16 16\" width=\"16\" height=\"16\"><path fill=\"currentColor\" d=\"M8 .25a.75.75 0 0 1 .673.418l1.882 3.815 4.21.612a.75.75 0 0 1 .416 1.279l-3.046 2.97.719 4.192a.751.751 0 0 1-1.088.791L8 12.347l-3.766 1.98a.75.75 0 0 1-1.088-.79l.72-4.194L.818 6.374a.75.75 0 0 1 .416-1.28l4.21-.611L7.327.668A.75.75 0 0 1 8 .25Z\"></path></svg>\n        " ++
    (toString repo.stargazers_count) ++
    "\n      </a>\n    "
  let forks :=
    if repo.forks_count = 0 then "" else
      "\n      <a href=\"" ++
    (repo.html_url) ++
    "/forks\" target=\"_blank\" rel=\"noopener\" class=\"stat\">\n        <svg viewBox=\"0 0 16 16\" width=\"16\" height=\"16\"><path fill=\"currentColor\" d=\"M5 5.372v.878c0 .414.336.75.75.75h4.5a.75.75 0 0 0 .75-.75v-.878a2.25 2.25 0 1 1 1.5 0v.878a2.25 2.25 0 0 1-2.25 2.25h-1.5v2.128a2.251 2.251 0 1 1-1.5 0V8.5h-1.5A2.25 2.25 0 0 1 3.5 6.25v-.878a2.25 2.25 0 1 1 1.5 0ZM5 3.25a.75.75 0 1 0-1.5 0 .75.75 0 0 0 1.5 0Zm6.75.75a.75.75 0 1 0 0-1.5.75.75 0 0 0 0 1.5Zm-3 8.75a.75.75 0 1 0-1.5 0 .75.75 0 0 0 1.5 0Z\"></path></svg>\n        " ++
    (toString repo.forks_count) ++
    "\n      </a>\n    "
  let forkBadge := if repo.fork then "<span class=\"fork-badge\">Fork</span>" else ""
  let descBlock :=
    match repo.description with
    | some d =>
      if d = "" then "" else "<p class=\"repo-desc\">" ++ d ++ "</p>"
    | none => ""
  "\n      <article class=\"repo\" data-name=\"" ++
    (repoDataName repo) ++
    "\" data-desc=\"" ++
    (repoDataDesc repo) ++
    "\">\n        <div class=\"repo-header\">\n          <svg viewBox=\"0 0 16 16\" width=\"16\" height=\"16\" class=\"repo-icon\"><path fill=\"currentColor\" d=\"M2 2.5A2.5 2.5 0 0 1 4.5 0h8.75a.75.75 0 0 1 .75.75v12.5a.75.75 0 0 1-.75.75h-2.5a.75.75 0 0 1 0-1.5h1.75v-2h-8a1 1 0 0 0-.714 1.7.75.75 0 1 1-1.072 1.05A2.495 2.495 0 0 1 2 11.5Zm10.5-1h-8a1 1 0 0 0-1 1v6.708A2.486 2.486 0 0 1 4.5 9h8ZM5 12.25a.25.25 0 0 1 .25-.25h3.5a.25.25 0 0 1 .25.25v3.25a.25.25 0 0 1-.4.2l-1.45-1.087a.249.249 0 0 0-.3 0L5.4 15.7a.25.25 0 0 1-.4-.2Z\"></path></svg>\n          <a href=\"" ++
    (repo.html_url) ++
    "\" target=\"_blank\" rel=\"noopener\" class=\"repo-name\">" ++
    (repo.name) ++
    "</a>\n          " ++
    (forkBadge) ++
    "\n        </div>\n        " ++
    (descBlock) ++
    "\n        <div class=\"repo-meta\">\n          " ++
    (lang) ++
    "\n          " ++
    (stars) ++
    "\n          " ++
    (forks) ++
    "\n          <span class=\"updated\">Updated " ++
    (timeAgo now repo.updated_at) ++
    "</span>\n        </div>\n      </article>\n    "

/-! ### buildContributionGraph (gitglue.js lines 123-161) -/

/-- `x || d` on numbers: 0 is falsy.  (`NaN` cannot arise below because
`maxCount` is at least 1.) -/
def jsOrNum (x d : Rat) : Rat := if x = 0 then d else x

/-- Printing of the modelled rational bar geometry.  JavaScript prints its
IEEE doubles in decimal; the exact rational is printed as `num` or `num/den`.
Display-only: no claim depends on these digits. -/
def ratStr (q : Rat) : String :=
  if q.den = 1 then toString q.num
  else toString q.num ++ "/" ++ toString q.den

/-- `buildContributionGraph(weeks)`: one bar, one label and (for a positive
count) one count figure per week, then the header and the svg wrapper. -/
def buildContributionGraph (weeks : List Week) : String :=
  let barWidth : Nat := 50
  let barGap : Nat := 8
  let maxHeight : Nat := 60
  let width := weeks.length * (barWidth + barGap)
  let height := maxHeight + 30
  let maxCount : Nat := (weeks.map Week.count).foldr max 1
  let bars := String.join ((weeks.enum).map (fun p =>
    let i := p.1
    let w := p.2
    let barHeight : Rat :=
      jsOrNum ((w.count : Rat) / (maxCount : Rat) * (maxHeight : Rat)) 2
    let x := i * (barWidth + barGap)
    let y : Rat := (maxHeight : Rat) - barHeight
    ("<rect x=\"" ++
    (toString x) ++
    "\" y=\"" ++
    (ratStr y) ++
    "\" width=\"" ++
    (toString barWidth) ++
    "\" height=\"" ++
    (ratStr barHeight) ++
    "\" rx=\"3\" fill=\"#40c463\" class=\"activity-bar\"><title>" ++
    (w.label) ++
    ": " ++
    (toString w.count) ++
    " events</title></rect>") ++
    ("<text x=\"" ++
    (toString (x + barWidth / 2)) ++
    "\" y=\"" ++
    (toString (maxHeight + 16)) ++
    "\" text-anchor=\"middle\" class=\"bar-label\">" ++
    (w.label) ++
    "</text>") ++
    (if 0 < w.count then
      "<text x=\"" ++
    (toString (x + barWidth / 2)) ++
    "\" y=\"" ++
    (ratStr (y - 4)) ++
    "\" text-anchor=\"middle\" class=\"bar-count\">" ++
    (toString w.count) ++
    "</text>"
    else "")))
  let totalEvents := sumCounts weeks
  "\n      <div class=\"activity-header\">\n        <span class=\"activity-title\">Activity (last 12 weeks)</span>\n        <span class=\"activity-total\">" ++
    (toString totalEvents) ++
    " events</span>\n      </div>\n      <svg width=\"100%\" height=\"" ++
    (toString height) ++
    "\" viewBox=\"0 0 " ++
    (toString width) ++
    " " ++
    (toString height) ++
    "\" preserveAspectRatio=\"xMidYMid meet\" class=\"contrib-svg\">\n        " ++
    (bars) ++
    "\n      </svg>\n    "

/-! ### buildHTML (gitglue.js lines 81-121) -/

/-- The sort comparator `(a, b) => new Date(b.updated_at) - new Date(a.updated_at)`:
`a` sorts before `b` exactly when the comparator value is at most 0. -/
def repoLe (a b : Repo) : Bool := b.updated_at ≤ a.updated_at

/-- `repos.sort(comparator)`: `Array.prototype.sort` (stable, sorted with
respect to the comparator) is modelled by the stable merge sort. -/
def sortRepos (repos : List Repo) : List Repo := repos.mergeSort repoLe

/-- `profile.bio ? ... : ''` block of the profile header. -/
def bioBlock (profile : Profile) : String :=
  match profile.bio with
  | some b => if b = "" then "" else "<p class=\"bio\">" ++ b ++ "</p>"
  | none => ""

/-- The template of `buildHTML` up to the repos grid (the profile header, the
contribution graph and the search box). -/
def buildHTMLHeader (profile : Profile) (contribs : List Week) : String :=
  let bioBlock := bioBlock profile
  "\n      <div class=\"container\">\n        <header class=\"profile\">\n          <a href=\"" ++
    (profile.html_url) ++
    "\" target=\"_blank\" rel=\"noopener\">\n            <img src=\"" ++
    (profile.avatar_url) ++
    "\" alt=\"" ++
    (profile.login) ++
    "\" class=\"avatar\">\n          </a>\n          <div class=\"profile-info\">\n            <a href=\"" ++
    (profile.html_url) ++
    "\" target=\"_blank\" rel=\"noopener\" class=\"name\">" ++
    (jsOrStr profile.name profile.login) ++
    "</a>\n            <span class=\"username\">@" ++
    (profile.login) ++
    "</span>\n            " ++
    (bioBlock) ++
    "\n            <div class=\"stats\">\n              <a href=\"" ++
    (profile.html_url) ++
    "?tab=repositories\" target=\"_blank\" rel=\"noopener\">\n                <strong>" ++
    (toString profile.public_repos) ++
    "</strong> repos\n              </a>\n              <a href=\"" ++
    (profile.html_url) ++
    "?tab=followers\" target=\"_blank\" rel=\"noopener\">\n                <strong>" ++
    (toString profile.followers) ++
    "</strong> followers\n              </a>\n              <a href=\"" ++
    (profile.html_url) ++
    "?tab=following\" target=\"_blank\" rel=\"noopener\">\n                <strong>" ++
    (toString profile.following) ++
    "</strong> following\n              </a>\n            </div>\n          </div>\n        </header>\n\n        <div class=\"contrib-graph\">\n          " ++
    (buildContributionGraph contribs) ++
    "\n        </div>\n\n        <div class=\"search-container\">\n          <input type=\"text\" class=\"search\" placeholder=\"Search repositories...\">\n        </div>\n\n        <div class=\"repos\">\n          "

/-- The template of `buildHTML` after the repos grid. -/
def buildHTMLFooter : String :=
  "\n        </div>\n      </div>\n    "

/-- `buildHTML(profile, repos, contributions)` at render instant `now`: the
repos grid holds the cards of the repos sorted by the date comparator. -/
def buildHTML (profile : Profile) (repos : List Repo) (contribs : List Week)
    (now : Int) : String :=
  buildHTMLHeader profile contribs ++
    String.join ((sortRepos repos).map (buildRepoCard now)) ++
    buildHTMLFooter

/-! ### The first variant (src/unnamed/part_000, first file): its buildHTML
(lines 44-78 there) has no contribution graph and renders the cards in the
input list's order (line 74: `repos.map(...)`, no sort); its buildRepoCard
and footer text are character-identical to the ones above. -/

/-- The first variant's template up to the repos grid. -/
def v0BuildHTMLHeader (profile : Profile) : String :=
  let bioBlock := bioBlock profile
  "\n      <div class=\"container\">\n        <header class=\"profile\">\n          <a href=\"" ++
    (profile.html_url) ++
    "\" target=\"_blank\" rel=\"noopener\">\n            <img src=\"" ++
    (profile.avatar_url) ++
    "\" alt=\"" ++
    (profile.login) ++
    "\" class=\"avatar\">\n          </a>\n          <div class=\"profile-info\">\n            <a href=\"" ++
    (profile.html_url) ++
    "\" target=\"_blank\" rel=\"noopener\" class=\"name\">" ++
    (jsOrStr profile.name profile.login) ++
    "</a>\n            <span class=\"username\">@" ++
    (profile.login) ++
    "</span>\n            " ++
    (bioBlock) ++
    "\n            <div class=\"stats\">\n              <a href=\"" ++
    (profile.html_url) ++
    "?tab=repositories\" target=\"_blank\" rel=\"noopener\">\n                <strong>" ++
    (toString profile.public_repos) ++
    "</strong> repos\n              </a>\n              <a href=\"" ++
    (profile.html_url) ++
    "?tab=followers\" target=\"_blank\" rel=\"noopener\">\n                <strong>" ++
    (toString profile.followers) ++
    "</strong> followers\n              </a>\n              <a href=\"" ++
    (profile.html_url) ++
    "?tab=following\" target=\"_blank\" rel=\"noopener\">\n                <strong>" ++
    (toString profile.following) ++
    "</strong> following\n              </a>\n            </div>\n          </div>\n        </header>\n\n        <div class=\"search-container\">\n          <input type=\"text\" class=\"search\" placeholder=\"Search repositories...\">\n        </div>\n\n        <div class=\"repos\">\n          "

/-- The first variant's `buildHTML(profile, repos)`. -/
def v0BuildHTML (profile : Profile) (repos : List Repo) (now : Int) : String :=
  v0BuildHTMLHeader profile ++
    String.join (repos.map (buildRepoCard now)) ++
    buildHTMLFooter

/-! ### getStyles (gitglue.js lines 236-491): the style sheet prepended to
every state the component writes (loading, error, success). -/

/-- The `<style>` block `getStyles()` returns. -/
def getStyles : String :=
  "\n      <style>\n        :host \x7b\n          display: block;\n          font-family: -apple-system, BlinkMacSystemFont, \"Segoe UI\", \"Noto Sans\", Helvetica, Arial, sans-serif;\n          color: #24292f;\n          line-height: 1.5;\n        \x7d\n\n        * \x7b box-sizing: border-box; \x7d\n\n        a \x7b\n          color: #0969da;\n          text-decoration: none;\n        \x7d\n        a:hover \x7b text-decoration: underline; \x7d\n\n        .container \x7b\n          max-width: 900px;\n          margin: 0 auto;\n          padding: 24px;\n        \x7d\n\n        .loading, .error \x7b\n          text-align: center;\n          padding: 48px;\n          color: #57606a;\n        \x7d\n        .error \x7b color: #cf222e; \x7d\n\n        /* Profile Header */\n        .profile \x7b\n          display: flex;\n          gap: 24px;\n          padding-bottom: 24px;\n          border-bottom: 1px solid #d0d7de;\n          margin-bottom: 24px;\n        \x7d\n\n        .avatar \x7b\n          width: 100px;\n          height: 100px;\n          border-radius: 50%;\n          border: 2px solid #d0d7de;\n        \x7d\n\n        .profile-info \x7b\n          flex: 1;\n        \x7d\n\n        .name \x7b\n          font-size: 24px;\n          font-weight: 600;\n          color: #24292f;\n        \x7d\n        .name:hover \x7b color: #0969da; \x7d\n\n        .username \x7b\n          display: block;\n          color: #57606a;\n          font-size: 16px;\n          margin-top: 2px;\n        \x7d\n\n        .bio \x7b\n          margin: 12px 0;\n          color: #24292f;\n        \x7d\n\n        .stats \x7b\n          display: flex;\n          gap: 16px;\n          font-size: 14px;\n          color: #57606a;\n        \x7d\n        .stats a \x7b color: #57606a; \x7d\n        .stats a:hover \x7b color: #0969da; \x7d\n        .stats strong \x7b color: #24292f; \x7d\n\n        /* Activity Chart */\n        .contrib-graph \x7b\n          margin-bottom: 24px;\n          padding: 16px;\n          background: #ffffff;\n          border: 1px solid #d0d7de;\n          border-radius: 6px;\n          overflow-x: auto;\n        \x7d\n\n        .activity-header \x7b\n          display: flex;\n          justify-content: space-between;\n          align-items: center;\n          margin-bottom: 12px;\n        \x7d\n\n        .activity-title \x7b\n          font-weight: 600;\n          color: #24292f;\n        \x7d\n\n        .activity-total \x7b\n          font-size: 14px;\n          color: #57606a;\n        \x7d\n\n        .contrib-svg \x7b\n          display: block;\n          max-width: 100%;\n        \x7d\n\n        .bar-label \x7b\n          font-size: 10px;\n          fill: #57606a;\n        \x7d\n\n        .bar-count \x7b\n          font-size: 11px;\n          font-weight: 600;\n          fill: #24292f;\n        \x7d\n\n        .activity-bar \x7b\n          transition: fill 0.15s;\n        \x7d\n\n        .activity-bar:hover \x7b\n          fill: #2ea043;\n        \x7d\n\n        /* Search */\n        .search-container \x7b\n          margin-bottom: 20px;\n        \x7d\n\n        .search \x7b\n          width: 100%;\n          padding: 10px 12px;\n          font-size: 14px;\n          color: #24292f;\n          background: #f6f8fa;\n          border: 1px solid #d0d7de;\n          border-radius: 6px;\n          outline: none;\n        \x7d\n        .search:focus \x7b\n          border-color: #0969da;\n          box-shadow: 0 0 0 3px rgba(88, 166, 255, 0.15);\n        \x7d\n        .search::placeholder \x7b color: #6e7681; \x7d\n\n        /* Repos Grid */\n        .repos \x7b\n          display: grid;\n          grid-template-columns: repeat(auto-fill, minmax(340px, 1fr));\n          gap: 16px;\n        \x7d\n\n        .repo \x7b\n          background: #ffffff;\n          border: 1px solid #d0d7de;\n          border-radius: 6px;\n          padding: 16px;\n          transition: border-color 0.15s, box-shadow 0.15s;\n        \x7d\n        .repo:hover \x7b\n          border-color: #0969da;\n          box-shadow: 0 1px 3px rgba(0,0,0,0.08);\n        \x7d\n\n        .repo-header \x7b\n          display: flex;\n          align-items: center;\n          gap: 8px;\n          margin-bottom: 8px;\n        \x7d\n\n        .repo-icon \x7b color: #57606a; flex-shrink: 0; \x7d\n\n        .repo-name \x7b\n          font-size: 16px;\n          font-weight: 600;\n          color: #0969da;\n          overflow: hidden;\n          text-overflow: ellipsis;\n          white-space: nowrap;\n        \x7d\n\n        .fork-badge \x7b\n          font-size: 11px;\n          padding: 2px 6px;\n          background: #ddf4ff;\n          border-radius: 12px;\n          color: #0969da;\n        \x7d\n\n        .repo-desc \x7b\n          margin: 0 0 12px 0;\n          font-size: 14px;\n          color: #57606a;\n          display: -webkit-box;\n          -webkit-line-clamp: 2;\n          -webkit-box-orient: vertical;\n          overflow: hidden;\n        \x7d\n\n        .repo-meta \x7b\n          display: flex;\n          flex-wrap: wrap;\n          align-items: center;\n          gap: 12px;\n          font-size: 12px;\n          color: #57606a;\n        \x7d\n\n        .lang \x7b\n          display: flex;\n          align-items: center;\n          gap: 4px;\n        \x7d\n\n        .lang-dot \x7b\n          width: 12px;\n          height: 12px;\n          border-radius: 50%;\n        \x7d\n\n        .stat \x7b\n          display: flex;\n          align-items: center;\n          gap: 4px;\n          color: #57606a;\n        \x7d\n        .stat:hover \x7b color: #0969da; text-decoration: none; \x7d\n        .stat svg \x7b fill: currentColor; \x7d\n\n        .updated \x7b\n          margin-left: auto;\n          color: #8b949e;\n        \x7d\n\n        /* Responsive */\n        @media (max-width: 600px) \x7b\n          .profile \x7b\n            flex-direction: column;\n            align-items: center;\n            text-align: center;\n          \x7d\n          .stats \x7b justify-content: center; \x7d\n          .repos \x7b grid-template-columns: 1fr; \x7d\n          .updated \x7b display: none; \x7d\n        \x7d\n      </style>\n    "

/-- Claim C1 (amended): in gitglue.js, `buildHTML` renders the repos grid
from a permutation of the input repos whose `updated_at` values are
non-increasing, regardless of the input order; in the repository's first
variant, `buildHTML` renders the cards in the input list's order. -/
theorem buildHTML_repos_sorted (profile : Profile) (repos : List Repo)
    (contribs : List Week) (now : Int) :
    (sortRepos repos).Perm repos ∧
    ((sortRepos repos).map Repo.updated_at).Pairwise (fun a b => b ≤ a) ∧
    buildHTML profile repos contribs now =
      buildHTMLHeader profile contribs ++
        String.join ((sortRepos repos).map (buildRepoCard now)) ++
        buildHTMLFooter ∧
    v0BuildHTML profile repos now =
      v0BuildHTMLHeader profile ++
        String.join (repos.map (buildRepoCard now)) ++
        buildHTMLFooter := by
  refine ⟨List.mergeSort_perm _ _, ?_, rfl, rfl⟩
  have htrans : ∀ a b c : Repo, repoLe a b = true → repoLe b c = true →
      repoLe a c = true := by
    intro a b c h1 h2
    simp only [repoLe, decide_eq_true_eq] at *
    omega
  have htotal : ∀ a b : Repo, (repoLe a b || repoLe b a) = true := by
    intro a b
    simp only [repoLe, Bool.or_eq_true, decide_eq_true_eq]
    omega
  have hp := @List.sorted_mergeSort Repo repoLe htrans htotal repos
  rw [List.pairwise_map]
  exact hp.imp (fun h => by simpa [repoLe] using h)

/-- An input for the counterexample below: a profile with empty fields. -/
def cexProfile : Profile := ⟨"u", none, none, "", "", 0, 0, 0⟩

/-- A repo updated at instant 1000. -/
def cexRepoOld : Repo := ⟨"olderrepo", "", none, none, false, 0, 0, 1000⟩

/-- A repo updated at instant 2000. -/
def cexRepoNew : Repo := ⟨"newerrepo", "", none, none, false, 0, 0, 2000⟩

set_option maxRecDepth 100000 in
/-- Claim C1, counterexample: the first variant's `buildHTML` (cited by the
claim) keeps the input order.  With the two repos in ascending `updated_at`
order, the rendered repos grid lists them in that ascending (not
non-increasing) order, and differs from the page of the sorted arrangement. -/
theorem v0BuildHTML_keeps_input_order :
    v0BuildHTML cexProfile [cexRepoOld, cexRepoNew] 0 =
      v0BuildHTMLHeader cexProfile ++
        String.join ([cexRepoOld, cexRepoNew].map (buildRepoCard 0)) ++
        buildHTMLFooter ∧
    ¬ (([cexRepoOld, cexRepoNew].map Repo.updated_at).Pairwise
        (fun a b => b ≤ a)) ∧
    v0BuildHTML cexProfile [cexRepoOld, cexRepoNew] 0 ≠
      v0BuildHTMLHeader cexProfile ++
        String.join ([cexRepoNew, cexRepoOld].map (buildRepoCard 0)) ++
        buildHTMLFooter := by
  refine ⟨rfl, by decide, by decide⟩

/-! ### render (gitglue.js lines 21-47) -/

/-- The error state render's catch branch writes. -/
def errorPage : String :=
  getStyles ++ "<p class=\"error\">Failed to load GitHub data</p>"

/-- The outcome of one `fetch(...)`: the promise rejected, or a response with
its `ok` flag and its parsed body (`none` when `res.json()` would throw). -/
inductive FetchRes (α : Type) where
  | threw : FetchRes α
  | resp (ok : Bool) (body : Option α) : FetchRes α
deriving DecidableEq

/-- The `try`/`catch` of `render` once the three fetches settle: any
rejection, a not-ok profile or repos response, or a performed `json()` that
throws, ends in the error state; a not-ok events response degrades to an
empty event list; otherwise the success page is built. -/
def renderOutcome (pr : FetchRes Profile) (rr : FetchRes (List Repo))
    (er : FetchRes (List Event)) (now : Int) : String :=
  match pr, rr, er with
  | FetchRes.threw, _, _ => errorPage
  | _, FetchRes.threw, _ => errorPage
  | _, _, FetchRes.threw => errorPage
  | FetchRes.resp pok pbody, FetchRes.resp rok rbody, FetchRes.resp eok ebody =>
    if !pok || !rok then errorPage
    else
      match pbody with
      | none => errorPage
      | some profile =>
        match rbody with
        | none => errorPage
        | some repos =>
          if eok then
            match ebody with
            | none => errorPage
            | some events =>
              getStyles ++
                buildHTML profile repos (buildContributionData events now) now
          else
            getStyles ++
              buildHTML profile repos (buildContributionData [] now) now

/-- One full render pass: `this.shadowRoot.innerHTML = ...` replaces the
shadow root's previous content `st` wholesale with the new markup. -/
def renderPass (st : String) (pr : FetchRes Profile)
    (rr : FetchRes (List Repo)) (er : FetchRes (List Event)) (now : Int) :
    String :=
  renderOutcome pr rr er now

/-- Claim C7: a render pass is a function of the fetched records and the
render instant only: equal inputs give the identical HTML string, and the
shadow-root assignment replaces the previous content entirely, so nothing
from an earlier render pass survives into the new state. -/
theorem renderPass_depends_only_on_inputs (p p2 : Profile)
    (r r2 : List Repo) (c c2 : List Week) (now : Int) (st1 st2 : String)
    (pr : FetchRes Profile) (rr : FetchRes (List Repo))
    (er : FetchRes (List Event)) :
    (p = p2 → r = r2 → c = c2 →
      buildHTML p r c now = buildHTML p2 r2 c2 now) ∧
    renderPass st1 pr rr er now = renderPass st2 pr rr er now :=
  ⟨fun h1 h2 h3 => by rw [h1, h2, h3], rfl⟩

/-- The failure condition of claim C10, modelled from its words: the profile
or repository fetch is not ok, or a fetch rejects, or a JSON parse that
render performs throws (the events body is parsed only when the events
response is ok). -/
def specFailure (pr : FetchRes Profile) (rr : FetchRes (List Repo))
    (er : FetchRes (List Event)) : Bool :=
  match pr, rr, er with
  | FetchRes.threw, _, _ => true
  | _, FetchRes.threw, _ => true
  | _, _, FetchRes.threw => true
  | FetchRes.resp pok pbody, FetchRes.resp rok rbody, FetchRes.resp eok ebody =>
    !pok || !rok || pbody.isNone || rbody.isNone || (eok && ebody.isNone)

/-- The success page always starts with the container div (first character a
newline), so it never equals the error state. -/
theorem success_page_ne_errorPage (p : Profile) (r : List Repo)
    (c : List Week) (now : Int) :
    getStyles ++ buildHTML p r c now ≠ errorPage := by
  intro h
  rw [errorPage] at h
  have h2 : (buildHTML p r c now).data =
      ("<p class=\"error\">Failed to load GitHub data</p>" : String).data := by
    have h1 := congrArg String.data h
    rw [String.data_append, String.data_append] at h1
    exact List.append_cancel_left h1
  have h3 : (buildHTML p r c now).data.head? = some '\n' := by
    rw [buildHTML, buildHTMLHeader]
    simp only [String.data_append, List.head?_append]
    rfl
  rw [h2] at h3
  exact absurd h3 (by decide)

/-- Claim C10: with profile and repos fetched and parsed, a not-ok events
response still yields the full page with an empty event list; and the
failure state appears exactly when the profile or repos response is not ok,
or a fetch rejects, or a performed JSON parse throws. -/
theorem renderOutcome_events_degrade (pr : FetchRes Profile)
    (rr : FetchRes (List Repo)) (er : FetchRes (List Event)) (now : Int) :
    (∀ p repos eb, pr = FetchRes.resp true (some p) →
      rr = FetchRes.resp true (some repos) →
      er = FetchRes.resp false eb →
      renderOutcome pr rr er now =
        getStyles ++ buildHTML p repos (buildContributionData [] now) now) ∧
    (renderOutcome pr rr er now = errorPage ↔ specFailure pr rr er = true) := by
  constructor
  · rintro p repos eb rfl rfl rfl
    rfl
  · rcases pr with _ | ⟨pok, pbody⟩ <;> rcases rr with _ | ⟨rok, rbody⟩ <;>
      rcases er with _ | ⟨eok, ebody⟩ <;>
      simp only [renderOutcome, specFailure] <;>
      try simp
    rcases pok <;> rcases rok <;> rcases pbody with _ | p <;>
      rcases rbody with _ | r <;> rcases eok <;> rcases ebody with _ | evs <;>
      simp [success_page_ne_errorPage]
